import Mathlib

/-!
Shallow embedding of the microsegment_backend Shopify data-pull pipeline and
webhook endpoint, together with proofs about the embedded operations.

Source files embedded:
  * app/tasks/data_pull_tasks.py  (make_sync_graphql_request,
    poll_bulk_operation, download_bulk_data, pull_customers, pull_products,
    pull_orders, pull_all_data)
  * app/routers/data_pull_router.py  (get_pull_results cache key)
  * app/utils/webhook_utils.py  (verify_shopify_webhook_hmac, with a full
    executable model of HMAC-SHA256 and base64)
  * app/routers/shopify_webhooks_router.py  (receive_webhook and the three
    topic handlers)

Modelling conventions: network and database calls are oracles supplied as
explicit arguments (a response stream, a fetch function, a database record);
Python exceptions become an explicit error type threaded through Except;
machine words in SHA-256 are Nat reduced mod 2^32; wall-clock sleeps are not
modelled (only the counting structure of the loops that contain them).
-/

/-- Model of a parsed JSON value, as produced by json.loads. Parsing itself is
treated as an oracle (a function argument), so only the shape matters here. -/
inductive Json where
  | null
  | bool (b : Bool)
  | num (n : Int)
  | str (s : String)
  | arr (items : List Json)
  | obj (pairs : List (String × Json))

/-- Python exceptions that the data-pull code can raise; each constructor
corresponds to one raise site (or one stdlib exception class) in the source. -/
inductive PyErr where
  /-- Exception raised at data_pull_tasks.py line 64: a non-200 / non-429
  HTTP status from the Shopify GraphQL endpoint. -/
  | apiStatusError (status : Nat)
  /-- Exception("Max retries exceeded") at data_pull_tasks.py line 76. -/
  | maxRetriesExceeded
  /-- requests.exceptions.RequestException re-raised on the last attempt,
  data_pull_tasks.py line 74. -/
  | requestException
  /-- TimeoutError("Bulk operation polling timed out"),
  data_pull_tasks.py line 410. -/
  | timeoutError
  /-- ValueError for an invalid bulk-operation poll response,
  data_pull_tasks.py line 415. -/
  | valueError
  /-- TypeError raised while formatting the failure message in pull_customers
  when the submission result is None (None is not subscriptable). -/
  | typeError
  /-- KeyError raised while formatting the failure message in pull_customers
  when the given key is absent from the submission result. -/
  | keyError (key : String)
  /-- Exception("Failed to start bulk operation: [user errors]") raised at
  data_pull_tasks.py line 127 when the submission carries userErrors. -/
  | startFailed (userErrors : List String)
  /-- Exception("Failed to start bulk operation for [resource]") raised in
  pull_products / pull_orders when the submission lacks a data envelope. -/
  | startFailedNoData (resource : String)
  /-- Exception("Bulk operation for [resource] failed: [errorCode]") raised
  when polling ends with a non-COMPLETED terminal status. -/
  | bulkFailed (resource : String) (errorCode : Option String)
  /-- json.JSONDecodeError from json.loads on a malformed result line. -/
  | jsonDecodeError (line : String)
  /-- requests.HTTPError from response.raise_for_status in
  download_bulk_data. -/
  | httpError (status : Nat)
deriving DecidableEq, Repr

/-- Characters stripped by the Python str.strip() default
(space, tab, newline, carriage return, vertical tab, form feed). -/
def pyWhitespace (c : Char) : Bool :=
  c = ' ' || c = '\t' || c = '\n' || c = '\r' || c = '\x0b' || c = '\x0c'

/-- Model of Python str.strip(): drop leading and trailing whitespace. -/
def pyStrip (s : String) : String :=
  String.mk (((s.data.dropWhile pyWhitespace).reverse.dropWhile pyWhitespace).reverse)

/-- Model of the list comprehension in download_bulk_data
(data_pull_tasks.py line 428):
[json.loads(line) for line in lines if line].
Empty lines are skipped; the first malformed line aborts the whole batch with
its parse error (Python evaluates the comprehension left to right and the
first json.loads failure propagates). -/
def parseLines (loads : String → Except PyErr Json) : List String → Except PyErr (List Json)
  | [] => .ok []
  | l :: ls =>
    if l = "" then parseLines loads ls
    else
      match loads l with
      | .error e => .error e
      | .ok j =>
        match parseLines loads ls with
        | .error e => .error e
        | .ok js => .ok (j :: js)

/-- Outcome of one HTTP attempt inside make_sync_graphql_request: either a
response with a status code and (for status 200) a parsed JSON body, or a
requests.exceptions.RequestException raised by requests.post. The Retry-After
header only feeds time.sleep in the source, so it is not modelled (a
non-numeric Retry-After would raise ValueError, which also never surfaces the
429 response itself). -/
inductive AttemptOutcome where
  | response (status : Nat) (body : Json)
  | requestException

/-- Loop body of make_sync_graphql_request (data_pull_tasks.py lines 42-74):
for attempt in range(max_retries) with max_retries = 3. The list argument is
the remaining attempt indices; falling off the end reaches the
raise Exception("Max retries exceeded") at line 76. -/
def makeSyncLoop (outcomes : Nat → AttemptOutcome) : List Nat → Except PyErr Json
  | [] => .error .maxRetriesExceeded
  | attempt :: rest =>
    match outcomes attempt with
    | .response status body =>
      if status = 200 then .ok body
      else if status = 429 then makeSyncLoop outcomes rest
      else .error (.apiStatusError status)
    | .requestException =>
      if attempt < 3 - 1 then makeSyncLoop outcomes rest
      else .error .requestException

/-- Model of make_sync_graphql_request (data_pull_tasks.py lines 20-80, and
the identical copy in shopify_service.py lines 463-523): three attempts, a
200 returns the parsed body, a 429 sleeps and retries, any other status
raises, and a network exception retries unless it is the last attempt. -/
def make_sync_graphql_request (outcomes : Nat → AttemptOutcome) : Except PyErr Json :=
  makeSyncLoop outcomes (List.range 3)

/-- Record read from currentBulkOperation in a poll response
(status, url, errorCode fields used by the tasks). -/
structure BulkOp where
  status : String
  url : Option String
  errorCode : Option String
deriving DecidableEq, Repr

/-- Result of one poll query as seen by poll_bulk_operation: the underlying
make_sync_graphql_request may raise, the response may lack
data.currentBulkOperation (the ValueError branch at line 414), or it carries
an operation record. -/
inductive PollReply where
  | raises (e : PyErr)
  | invalid
  | op (o : BulkOp)

/-- Loop of poll_bulk_operation (data_pull_tasks.py lines 408-421, identical
in shopify_service.py lines 656-669). The source keeps a counter attempts
and raises TimeoutError when attempts reaches max_attempts = 200 before a
query is made; here the fuel argument is max_attempts - attempts, and
attempts is the index of the next query in the reply stream. The 3-second
time.sleep between queries is not modelled. -/
def pollLoop (replies : Nat → PollReply) (attempts : Nat) : Nat → Except PyErr BulkOp
  | 0 => .error .timeoutError
  | fuel + 1 =>
    match replies attempts with
    | .raises e => .error e
    | .invalid => .error .valueError
    | .op o =>
      if o.status = "COMPLETED" ∨ o.status = "FAILED" ∨ o.status = "CANCELED" then .ok o
      else pollLoop replies (attempts + 1) fuel

/-- Model of poll_bulk_operation (data_pull_tasks.py lines 391-421): poll the
current bulk operation up to max_attempts = 200 times, returning the first
record whose status is COMPLETED, FAILED or CANCELED, and raising
TimeoutError when the ceiling is reached. -/
def poll_bulk_operation (replies : Nat → PollReply) : Except PyErr BulkOp :=
  pollLoop replies 0 200

/-- Payload of the bulkOperationRunQuery field in a submission response.
The userErrors list holds the user error messages; Python treats a missing,
null or empty list as falsy, all represented by []. -/
structure RunQueryResult where
  userErrors : List String
deriving DecidableEq, Repr

/-- Value of the data field in a submission response; bulkOperationRunQuery
is none when that key is absent. -/
structure SubmissionData where
  bulkOperationRunQuery : Option RunQueryResult
deriving DecidableEq, Repr

/-- Parsed JSON envelope returned by start_bulk_operation; data is none when
the key data is absent from the dict. The whole envelope is wrapped in
Option at the use site: none models a falsy result (None or an empty dict,
both of which fail the guard the same way). -/
structure SubmissionResult where
  data : Option SubmissionData
deriving DecidableEq, Repr

/-- Guard of pull_customers (data_pull_tasks.py lines 121-130). Returns the
exception that the raise statement produces when the guard condition is
true, and none when the task proceeds. When the condition holds, Python
first evaluates the f-string result["data"]["bulkOperationRunQuery"]
.get("userErrors"), so a None result raises TypeError, a missing data key
raises KeyError("data"), a missing bulkOperationRunQuery key raises
KeyError("bulkOperationRunQuery"), and only the genuine userErrors case
raises the formatted Exception. All of these are caught by the task body
either way. -/
def customersGuardError : Option SubmissionResult → Option PyErr
  | none => some .typeError
  | some r =>
    match r.data with
    | none => some (.keyError "data")
    | some d =>
      match d.bulkOperationRunQuery with
      | none => some (.keyError "bulkOperationRunQuery")
      | some q => if q.userErrors ≠ [] then some (.startFailed q.userErrors) else none

/-- Guard of pull_products / pull_orders (data_pull_tasks.py lines 184-185
and 240-241): only a falsy result or a missing data key raises; userErrors
are not inspected. -/
def productsGuardError (resource : String) : Option SubmissionResult → Option PyErr
  | none => some (.startFailedNoData resource)
  | some r =>
    match r.data with
    | none => some (.startFailedNoData resource)
    | some _ => none

/-- Oracles consumed by one run of a pull task: the submission response (the
value or exception from start_bulk_operation), the stream of poll replies,
the HTTP fetch of the bulk result url (requests.get + raise_for_status +
.text folded into one Except), the json.loads oracle for result lines, and
the json.dumps oracle for the elements of the cached list. -/
structure TaskEnv where
  submission : Except PyErr (Option SubmissionResult)
  pollReplies : Nat → PollReply
  fetch : Option String → Except PyErr String
  jsonLoads : String → Except PyErr Json
  jsonDumpElem : Json → String

/-- Model of json.dumps applied to a Python list: the element serializations
joined by ", " inside square brackets. Element serialization is an oracle;
the list framing is fixed, so json.dumps of the empty list is "[]". -/
def jsonDumpsTop (dumpElem : Json → String) (xs : List Json) : String :=
  "[" ++ String.intercalate ", " (xs.map dumpElem) ++ "]"

/-- Helper for pySplitLines: accumulate the current line (reversed) while
scanning the remaining characters. -/
def splitLinesAux (cur : List Char) : List Char → List String
  | [] => [String.mk cur.reverse]
  | c :: cs =>
    if c = '\n' then String.mk cur.reverse :: splitLinesAux [] cs
    else splitLinesAux (c :: cur) cs

/-- Model of the Python split("\n") with an explicit one-character
separator: adjacent separators and a trailing separator produce empty
fields, and the empty string yields one empty field. -/
def pySplitLines (s : String) : List String :=
  splitLinesAux [] s.data

/-- Model of download_bulk_data (data_pull_tasks.py lines 424-428, identical
in shopify_service.py lines 672-676): fetch the url (raising on a network
error or a non-success status), strip the text, split on newlines, then
parse each non-empty line, aborting on the first malformed one. -/
def download_bulk_data (env : TaskEnv) (url : Option String) : Except PyErr (List Json) :=
  match env.fetch url with
  | .error e => .error e
  | .ok text => parseLines env.jsonLoads (pySplitLines (pyStrip text))

/-- Cache key written by the pull tasks
(data_pull_tasks.py lines 136, 191, 247). -/
def bulkPullCacheKey (resource shop taskId : String) : String :=
  "shopify:" ++ resource ++ ":" ++ shop ++ ":" ++ taskId

/-- Cache key read by the results endpoint
(data_pull_router.py line 74). -/
def resultsCacheKey (dataType shop taskId : String) : String :=
  dataType ++ "_pull:" ++ shop ++ ":" ++ taskId

/-- Dict returned by a pull task: success flag, record count and message on
success; success False with the caught exception and a message on failure.
The source stringifies the exception into the error field; the structured
exception is kept here. -/
structure PullResult where
  success : Bool
  count : Option Nat
  error : Option PyErr
  message : String
deriving DecidableEq, Repr

/-- Failure dict built in the except branch of each pull task
(for example data_pull_tasks.py lines 160-164). -/
def failureResult (resource : String) (e : PyErr) : PullResult :=
  { success := false, count := none, error := some e,
    message := "Failed to pull " ++ resource }

/-- Shared body of pull_customers, pull_products and pull_orders
(data_pull_tasks.py lines 83-276; the three functions differ only in the
resource name, the submission guard and the literal strings). Returns the
result dict together with the list of redis set calls performed
(key, serialized value). Every raised PyErr is caught by the enclosing
try/except Exception and turned into a failure dict, so the function is
total; update_state calls only write task metadata and are not modelled. -/
def pullResource (resource : String) (guard : Option SubmissionResult → Option PyErr)
    (shop taskId : String) (env : TaskEnv) : PullResult × List (String × String) :=
  match env.submission with
  | .error e => (failureResult resource e, [])
  | .ok result =>
    match guard result with
    | some e => (failureResult resource e, [])
    | none =>
      match poll_bulk_operation env.pollReplies with
      | .error e => (failureResult resource e, [])
      | .ok op =>
        if op.status = "COMPLETED" then
          match download_bulk_data env op.url with
          | .error e => (failureResult resource e, [])
          | .ok data =>
            ({ success := true, count := some data.length, error := none,
               message := "Successfully pulled " ++ toString data.length ++ " " ++ resource },
             [(bulkPullCacheKey resource shop taskId, jsonDumpsTop env.jsonDumpElem data)])
        else (failureResult resource (.bulkFailed resource op.errorCode), [])

/-- Model of the celery task pull_customers
(data_pull_tasks.py lines 83-164). -/
def pull_customers (shop taskId : String) (env : TaskEnv) : PullResult × List (String × String) :=
  pullResource "customers" customersGuardError shop taskId env

/-- Model of the celery task pull_products
(data_pull_tasks.py lines 167-220). -/
def pull_products (shop taskId : String) (env : TaskEnv) : PullResult × List (String × String) :=
  pullResource "products" (productsGuardError "products") shop taskId env

/-- Model of the celery task pull_orders
(data_pull_tasks.py lines 223-276). -/
def pull_orders (shop taskId : String) (env : TaskEnv) : PullResult × List (String × String) :=
  pullResource "orders" (productsGuardError "orders") shop taskId env

/-- Dict returned by pull_all_data on success
(data_pull_tasks.py lines 470-479). -/
structure PullAllResult where
  success : Bool
  message : String
  taskId : String
  subtaskCustomers : String
  subtaskProducts : String
  subtaskOrders : String
deriving DecidableEq, Repr

/-- Model of the celery task pull_all_data (data_pull_tasks.py lines
431-495): schedule the three sub-tasks with apply_async under derived task
ids and return at once. apply_async is fire-and-forget; its AsyncResult
carries exactly the task_id that was passed, and the function never waits on
any sub-task, so the model takes no input describing sub-task outcomes. The
second component lists the scheduled (task name, task id) pairs in order. -/
def pull_all_data (parentId : String) : PullAllResult × List (String × String) :=
  let customersId := parentId ++ "-customers"
  let productsId := parentId ++ "-products"
  let ordersId := parentId ++ "-orders"
  ({ success := true, message := "Data pull tasks scheduled successfully",
     taskId := parentId,
     subtaskCustomers := customersId,
     subtaskProducts := productsId,
     subtaskOrders := ordersId },
   [("pull_customers", customersId), ("pull_products", productsId), ("pull_orders", ordersId)])

/-- Reduction of a Nat to a 32-bit machine word, as used throughout the
SHA-256 model. -/
def m32 (n : Nat) : Nat := n % 4294967296

/-- Right rotation of a 32-bit word by n bits (input assumed below 2^32). -/
def rotr32 (n w : Nat) : Nat := m32 (w / 2 ^ n + w * 2 ^ (32 - n))

/-- Logical right shift of a 32-bit word. -/
def shr32 (n w : Nat) : Nat := w / 2 ^ n

/-- Bitwise complement within 32 bits (input assumed below 2^32). -/
def not32 (w : Nat) : Nat := 4294967295 - w

/-- SHA-256 choice function. -/
def sha2Ch (e f g : Nat) : Nat := (e &&& f) ^^^ (not32 e &&& g)

/-- SHA-256 majority function (symmetric in its arguments). -/
def sha2Maj (a b c : Nat) : Nat := (b &&& c) ^^^ (c &&& a) ^^^ (a &&& b)

/-- SHA-256 big sigma 0. -/
def bigSigma0 (a : Nat) : Nat := rotr32 2 a ^^^ rotr32 13 a ^^^ rotr32 22 a

/-- SHA-256 big sigma 1. -/
def bigSigma1 (e : Nat) : Nat := rotr32 6 e ^^^ rotr32 11 e ^^^ rotr32 25 e

/-- SHA-256 small sigma 0. -/
def smallSigma0 (w : Nat) : Nat := rotr32 7 w ^^^ rotr32 18 w ^^^ shr32 3 w

/-- SHA-256 small sigma 1. -/
def smallSigma1 (w : Nat) : Nat := rotr32 17 w ^^^ rotr32 19 w ^^^ shr32 10 w

/-- SHA-256 round constants (the 64 words of FIPS 180-4, written in
decimal). -/
def sha2K : List Nat :=
  [1116352408, 1899447441, 3049323471, 3921009573,
   961987163, 1508970993, 2453635748, 2870763221,
   3624381080, 310598401, 607225278, 1426881987,
   1925078388, 2162078206, 2614888103, 3248222580,
   3835390401, 4022224774, 264347078, 604807628,
   770255983, 1249150122, 1555081692, 1996064986,
   2554220882, 2821834349, 2952996808, 3210313671,
   3336571891, 3584528711, 113926993, 338241895,
   666307205, 773529912, 1294757372, 1396182291,
   1695183700, 1986661051, 2177026350, 2456956037,
   2730485921, 2820302411, 3259730800, 3345764771,
   3516065817, 3600352804, 4094571909, 275423344,
   430227734, 506948616, 659060556, 883997877,
   958139571, 1322822218, 1537002063, 1747873779,
   1955562222, 2024104815, 2227730452, 2361852424,
   2428436474, 2756734187, 3204031479, 3329325298]

/-- Working state of the SHA-256 compression function (eight 32-bit words). -/
structure Sha256State where
  a : Nat
  b : Nat
  c : Nat
  d : Nat
  e : Nat
  f : Nat
  g : Nat
  h : Nat
deriving DecidableEq, Repr

/-- Initial SHA-256 hash value (FIPS 180-4, written in decimal). -/
def sha2Init : Sha256State :=
  ⟨1779033703, 3144134277, 1013904242, 2773480762,
   1359893119, 2600822924, 528734635, 1541459225⟩

/-- Extension of the 16-word message schedule to 64 words; the list is kept
reversed (most recent word first) while extending. -/
def scheduleLoop (rev : List Nat) : Nat → List Nat
  | 0 => rev
  | n + 1 =>
    scheduleLoop
      (m32 (smallSigma1 (rev.getD 1 0) + rev.getD 6 0 + smallSigma0 (rev.getD 14 0) + rev.getD 15 0)
        :: rev) n

/-- Full 64-word message schedule of one block. -/
def sha2Schedule (block : List Nat) : List Nat :=
  (scheduleLoop block.reverse 48).reverse

/-- One SHA-256 compression round. -/
def sha2Round (st : Sha256State) (w k : Nat) : Sha256State :=
  let t1 := m32 (st.h + bigSigma1 st.e + sha2Ch st.e st.f st.g + k + w)
  let t2 := m32 (bigSigma0 st.a + sha2Maj st.a st.b st.c)
  ⟨m32 (t1 + t2), st.a, st.b, st.c, m32 (st.d + t1), st.e, st.f, st.g⟩

/-- Compression of one 16-word block into the running hash state. -/
def sha2CompressBlock (st : Sha256State) (block : List Nat) : Sha256State :=
  let fin := ((sha2Schedule block).zip sha2K).foldl (fun s p => sha2Round s p.1 p.2) st
  ⟨m32 (st.a + fin.a), m32 (st.b + fin.b), m32 (st.c + fin.c), m32 (st.d + fin.d),
   m32 (st.e + fin.e), m32 (st.f + fin.f), m32 (st.g + fin.g), m32 (st.h + fin.h)⟩

/-- Big-endian byte decomposition of a value into n bytes. -/
def beBytes : Nat → Nat → List Nat
  | 0, _ => []
  | n + 1, v => v / 2 ^ (8 * n) % 256 :: beBytes n v

/-- SHA-256 padding: append 0x80, zeros to 56 mod 64, then the bit length as
eight big-endian bytes. -/
def sha2Pad (ms : List Nat) : List Nat :=
  let len := ms.length
  let zeros := (119 - len % 64) % 64
  ms ++ 128 :: List.replicate zeros 0 ++ beBytes 8 (8 * len)

/-- Grouping of a byte list (whose length is a multiple of 4) into
big-endian 32-bit words. -/
def bytesToWords : List Nat → List Nat
  | b0 :: b1 :: b2 :: b3 :: rest =>
    (b0 * 16777216 + b1 * 65536 + b2 * 256 + b3) :: bytesToWords rest
  | _ => []

/-- Grouping of a word list into 16-word blocks. -/
def wordsToBlocks : List Nat → List (List Nat)
  | [] => []
  | w :: ws => (w :: ws.take 15) :: wordsToBlocks (ws.drop 15)
termination_by ws => ws.length
decreasing_by simp; omega

/-- Serialization of the final hash state as 32 big-endian bytes. -/
def sha2StateBytes (st : Sha256State) : List Nat :=
  beBytes 4 st.a ++ beBytes 4 st.b ++ beBytes 4 st.c ++ beBytes 4 st.d ++
  beBytes 4 st.e ++ beBytes 4 st.f ++ beBytes 4 st.g ++ beBytes 4 st.h

/-- Model of hashlib.sha256(ms).digest(): the SHA-256 digest (32 bytes) of a
byte list. -/
def sha256 (ms : List Nat) : List Nat :=
  sha2StateBytes ((wordsToBlocks (bytesToWords (sha2Pad ms))).foldl sha2CompressBlock sha2Init)

/-- Model of hmac.new(key, msg, hashlib.sha256).digest() (RFC 2104 with a
64-byte block). -/
def hmacSha256 (key msg : List Nat) : List Nat :=
  let k0 := if 64 < key.length then sha256 key else key
  let kp := k0 ++ List.replicate (64 - k0.length) 0
  let ipadKey := kp.map (fun b => b ^^^ 54)
  let opadKey := kp.map (fun b => b ^^^ 92)
  sha256 (opadKey ++ sha256 (ipadKey ++ msg))

/-- Character of the standard base64 alphabet at a 6-bit index. -/
def b64Char (i : Nat) : Char :=
  "ABCDEFGHIJKLMNOPQRSTUVWXYZabcdefghijklmnopqrstuvwxyz0123456789+/".data.getD i 'A'

/-- Model of base64.b64encode (standard alphabet, with padding), producing a
string. -/
def base64Encode : List Nat → String
  | [] => ""
  | [b1] => String.mk [b64Char (b1 / 4), b64Char (b1 % 4 * 16), '=', '=']
  | [b1, b2] => String.mk [b64Char (b1 / 4), b64Char (b1 % 4 * 16 + b2 / 16), b64Char (b2 % 16 * 4), '=']
  | b1 :: b2 :: b3 :: rest =>
    String.mk [b64Char (b1 / 4), b64Char (b1 % 4 * 16 + b2 / 16),
               b64Char (b2 % 16 * 4 + b3 / 64), b64Char (b3 % 64)] ++ base64Encode rest

/-- UTF-8 encoding of one character. -/
def utf8Char (c : Char) : List Nat :=
  let n := c.toNat
  if n < 128 then [n]
  else if n < 2048 then [192 + n / 64, 128 + n % 64]
  else if n < 65536 then [224 + n / 4096, 128 + n / 64 % 64, 128 + n % 64]
  else [240 + n / 262144, 128 + n / 4096 % 64, 128 + n / 64 % 64, 128 + n % 64]

/-- Model of str.encode("utf-8"): the UTF-8 bytes of a string. -/
def utf8Encode (s : String) : List Nat :=
  s.data.foldr (fun c acc => utf8Char c ++ acc) []

/-- Model of verify_shopify_webhook_hmac (webhook_utils.py lines 9-38). The
raw body is a byte list and the secret a string (encoded to UTF-8 inside, as
in the source). Falsy data, secret or received_hmac short-circuits to False;
otherwise the received value is compared against the base64 of the
HMAC-SHA256 digest (hmac.compare_digest is equality of the two strings; its
timing guarantee has no functional content). The except branch of the source
is unreachable in this model since nothing here raises. -/
def verify_shopify_webhook_hmac (data : List Nat) (secret : String) (received_hmac : String) : Bool :=
  if data = [] then false
  else if secret = "" then false
  else if received_hmac = "" then false
  else if base64Encode (hmacSha256 (utf8Encode secret) data) = received_hmac then true
  else false

/-- Parsed webhook payload fields that decide control flow in the topic
handlers: payload.get("customer", (empty)).get("id") and
payload.get("shop_domain"). -/
structure WebhookPayload where
  customerId : Option String
  shopDomainField : Option String
deriving DecidableEq, Repr

/-- Database oracle for the webhook handlers. Each field is one database
interaction: it either raises (models a SQLAlchemy/connection error) or
returns a value. findShop is the select of Shop by domain (returning the
internal shop id when found); customerEvents is the events select in
handle_customers_data_request; redactOps is the select/delete/commit block
of handle_customers_redact; shopRedactOps is the delete/update/commit block
of handle_shop_redact. -/
structure WebhookDb where
  findShop : String → Except Unit (Option Nat)
  customerEvents : Nat → String → Except Unit (List Nat)
  redactOps : Except Unit Unit
  shopRedactOps : Except Unit Unit

/-- Model of handle_customers_data_request (shopify_webhooks_router.py lines
19-117). A missing customer id returns normally; the Shop select (line 45)
and the events select (line 95) are not inside any try/except, so a database
error there propagates out of the handler. -/
def handle_customers_data_request (shopDomain : String) (payload : WebhookPayload)
    (db : WebhookDb) : Except Unit Unit :=
  match payload.customerId with
  | none => .ok ()
  | some cid =>
    match db.findShop shopDomain with
    | .error e => .error e
    | .ok none => .ok ()
    | .ok (some sid) =>
      match db.customerEvents sid cid with
      | .error e => .error e
      | .ok _ => .ok ()

/-- Model of handle_customers_redact (shopify_webhooks_router.py lines
120-217). The Shop select (line 149) is outside the try/except and can
propagate; the select/delete/commit block (lines 195-214) is wrapped in
try/except, which rolls back and returns normally on error. -/
def handle_customers_redact (shopDomain : String) (payload : WebhookPayload)
    (db : WebhookDb) : Except Unit Unit :=
  match payload.customerId with
  | none => .ok ()
  | some _ =>
    match db.findShop shopDomain with
    | .error e => .error e
    | .ok none => .ok ()
    | .ok (some _) =>
      match db.redactOps with
      | .error _ => .ok ()
      | .ok _ => .ok ()

/-- Model of handle_shop_redact (shopify_webhooks_router.py lines 220-276).
The Shop select (line 236) is outside the try/except and can propagate; the
delete/update/commit block (lines 245-273) is wrapped in try/except, which
rolls back and returns a 200 on error. -/
def handle_shop_redact (shopDomain : String) (_payload : WebhookPayload)
    (db : WebhookDb) : Except Unit Unit :=
  match db.findShop shopDomain with
  | .error e => .error e
  | .ok none => .ok ()
  | .ok (some _) =>
    match db.shopRedactOps with
    | .error _ => .ok ()
    | .ok _ => .ok ()

/-- Outcome of one call of the webhook endpoint: an HTTP response with a
status code (HTTPException and JSONResponse both produce one), or an
exception escaping the endpoint (which the surrounding framework does not
turn into a 200). -/
inductive WebhookOutcome where
  | http (status : Nat) (tag : String)
  | unhandled
deriving DecidableEq, Repr

/-- Truthiness of an optional header string: Header(None) gives None when
the header is absent, and an empty string is also falsy in Python. -/
def headerFalsy : Option String → Bool
  | none => true
  | some s => s = ""

/-- Model of receive_webhook (shopify_webhooks_router.py lines 279-340).
Inputs are the three Shopify headers, the raw body bytes, the configured
secret, the json.loads outcome for the body (an oracle, consulted only when
the body is non-empty) and the database oracle. Missing or empty headers
give HTTP 400; a failed HMAC check gives HTTP 401; an unparseable JSON body
gives HTTP 200 with an error payload; a recognized topic dispatches to its
handler, whose escaping exception (if any) escapes the endpoint as well; all
remaining paths return the final HTTP 200 JSONResponse. -/
def receive_webhook (topic hmacHeader shopDomain : Option String)
    (rawBody : List Nat) (secret : String)
    (parsedBody : Except Unit WebhookPayload) (db : WebhookDb) : WebhookOutcome :=
  if headerFalsy topic || headerFalsy hmacHeader || headerFalsy shopDomain then
    .http 400 "Missing Shopify headers"
  else
    match topic, hmacHeader, shopDomain with
    | some t, some h, some sd =>
      if verify_shopify_webhook_hmac rawBody secret h = false then
        .http 401 "HMAC validation failed"
      else
        match (if rawBody = [] then .ok ⟨none, none⟩ else parsedBody :
               Except Unit WebhookPayload) with
        | .error _ => .http 200 "Invalid JSON payload"
        | .ok payload =>
          if t = "customers/data_request" then
            match handle_customers_data_request sd payload db with
            | .error _ => .unhandled
            | .ok _ => .http 200 "webhook received"
          else if t = "customers/redact" then
            match handle_customers_redact sd payload db with
            | .error _ => .unhandled
            | .ok _ => .http 200 "webhook received"
          else if t = "shop/redact" then
            match handle_shop_redact sd payload db with
            | .error _ => .unhandled
            | .ok _ => .http 200 "webhook received"
          else .http 200 "webhook received"
    | _, _, _ => .http 400 "Missing Shopify headers"

/-- Congruence of the poll loop: the result only depends on the replies in
the window of at most fuel queries starting at the current attempt index. -/
theorem pollLoop_congr (r1 r2 : Nat → PollReply) :
    ∀ (fuel attempts : Nat), (∀ k, attempts ≤ k → k < attempts + fuel → r1 k = r2 k) →
      pollLoop r1 attempts fuel = pollLoop r2 attempts fuel := by
  intro fuel
  induction fuel with
  | zero => intro attempts _; rfl
  | succ n ih =>
    intro attempts h
    have h0 : r1 attempts = r2 attempts := h attempts le_rfl (by omega)
    have ih2 := ih (attempts + 1) (fun k hk1 hk2 => h k (by omega) (by omega))
    simp only [pollLoop, h0, ih2]

/-- Exhaustion of the poll loop: when every reply in the window is a
non-terminal operation record, the loop raises TimeoutError. -/
theorem pollLoop_timeout (replies : Nat → PollReply) :
    ∀ (fuel attempts : Nat),
      (∀ k, attempts ≤ k → k < attempts + fuel → ∃ o, replies k = PollReply.op o ∧
          ¬(o.status = "COMPLETED" ∨ o.status = "FAILED" ∨ o.status = "CANCELED")) →
      pollLoop replies attempts fuel = .error .timeoutError := by
  intro fuel
  induction fuel with
  | zero => intro attempts _; rfl
  | succ n ih =>
    intro attempts h
    obtain ⟨o, ho, hno⟩ := h attempts le_rfl (by omega)
    simp only [pollLoop, ho]
    rw [if_neg hno]
    exact ih (attempts + 1) (fun k hk1 hk2 => h k (by omega) (by omega))

/-- First-hit behaviour of the poll loop: the first terminal reply in the
window is returned as is. -/
theorem pollLoop_first_terminal (replies : Nat → PollReply) :
    ∀ (fuel attempts k : Nat) (o : BulkOp), attempts ≤ k → k < attempts + fuel →
      replies k = PollReply.op o →
      (o.status = "COMPLETED" ∨ o.status = "FAILED" ∨ o.status = "CANCELED") →
      (∀ j, attempts ≤ j → j < k → ∃ o2, replies j = PollReply.op o2 ∧
          ¬(o2.status = "COMPLETED" ∨ o2.status = "FAILED" ∨ o2.status = "CANCELED")) →
      pollLoop replies attempts fuel = .ok o := by
  intro fuel
  induction fuel with
  | zero => intro attempts k o h1 h2; omega
  | succ n ih =>
    intro attempts k o h1 h2 hrep hterm hpre
    by_cases hk : k = attempts
    · subst hk
      simp only [pollLoop, hrep]
      rw [if_pos hterm]
    · obtain ⟨o2, ho2, hno2⟩ := hpre attempts le_rfl (by omega)
      simp only [pollLoop, ho2]
      rw [if_neg hno2]
      exact ih (attempts + 1) k o (by omega) (by omega) hrep hterm
        (fun j hj1 hj2 => hpre j (by omega) hj2)

/-- C1: poll_bulk_operation performs at most 200 status queries (the result
only depends on replies 0 through 199); it returns the operation record the
first time the observed status is COMPLETED, FAILED or CANCELED; and it
raises TimeoutError once the 200-attempt ceiling is reached without a
terminal status, so an operation that never leaves RUNNING raises Timeout
rather than looping forever. The fixed 3-second sleep between queries is
real time and outside the model. -/
theorem c1_poll_bulk_operation_bounded :
    (∀ r1 r2 : Nat → PollReply, (∀ k, k < 200 → r1 k = r2 k) →
        poll_bulk_operation r1 = poll_bulk_operation r2) ∧
    (∀ replies : Nat → PollReply,
        (∀ k, k < 200 → ∃ o, replies k = PollReply.op o ∧
            ¬(o.status = "COMPLETED" ∨ o.status = "FAILED" ∨ o.status = "CANCELED")) →
        poll_bulk_operation replies = .error .timeoutError) ∧
    (∀ (replies : Nat → PollReply) (k : Nat) (o : BulkOp), k < 200 →
        replies k = PollReply.op o →
        (o.status = "COMPLETED" ∨ o.status = "FAILED" ∨ o.status = "CANCELED") →
        (∀ j, j < k → ∃ o2, replies j = PollReply.op o2 ∧
            ¬(o2.status = "COMPLETED" ∨ o2.status = "FAILED" ∨ o2.status = "CANCELED")) →
        poll_bulk_operation replies = .ok o) := by
  refine ⟨?_, ?_, ?_⟩
  · intro r1 r2 h
    exact pollLoop_congr r1 r2 200 0 (fun k _ hk2 => h k (by omega))
  · intro replies h
    exact pollLoop_timeout replies 200 0 (fun k _ hk2 => h k (by omega))
  · intro replies k o hk hrep hterm hpre
    exact pollLoop_first_terminal replies 200 0 k o (Nat.zero_le k) (by omega) hrep hterm
      (fun j _ hj2 => hpre j hj2)

/-- Witness for C1 at concrete reply streams: a stream that never leaves
RUNNING times out, a stream that turns COMPLETED at query 3 returns that
record, and two streams agreeing on the first 200 queries poll alike. -/
theorem c1_poll_bulk_operation_bounded_witness :
    poll_bulk_operation (fun _ => PollReply.op ⟨"RUNNING", none, none⟩) =
      .error .timeoutError ∧
    poll_bulk_operation (fun k => if k < 3 then PollReply.op ⟨"RUNNING", none, none⟩
        else PollReply.op ⟨"COMPLETED", some "https://r.example/x.jsonl", none⟩) =
      .ok ⟨"COMPLETED", some "https://r.example/x.jsonl", none⟩ ∧
    poll_bulk_operation (fun _ => PollReply.op ⟨"RUNNING", none, none⟩) =
      poll_bulk_operation (fun k => if k < 200 then PollReply.op ⟨"RUNNING", none, none⟩
        else PollReply.invalid) := by
  refine ⟨?_, ?_, ?_⟩
  · exact c1_poll_bulk_operation_bounded.2.1 _ (fun k _ => ⟨_, rfl, by simp⟩)
  · exact c1_poll_bulk_operation_bounded.2.2 _ 3 _ (by omega) (by norm_num) (by simp)
      (fun j hj => ⟨⟨"RUNNING", none, none⟩, by simp [hj], by simp⟩)
  · exact c1_poll_bulk_operation_bounded.1 _ _ (fun k hk => by simp [hk])

/-- Retry loop of the synchronous GraphQL request never surfaces a 429: any
error it raises is a non-429 status error, the max-retries exception, or the
final network exception. -/
theorem makeSyncLoop_never_429 (outcomes : Nat → AttemptOutcome) :
    ∀ rest : List Nat, makeSyncLoop outcomes rest ≠ .error (.apiStatusError 429) := by
  intro rest
  induction rest with
  | nil => simp [makeSyncLoop]
  | cons attempt rest ih =>
    simp only [makeSyncLoop]
    cases outcomes attempt with
    | response status body =>
      by_cases h200 : status = 200
      · simp [h200]
      · by_cases h429 : status = 429
        · simpa [h200, h429] using ih
        · simp [h200, h429]
    | requestException =>
      by_cases hlast : attempt < 3 - 1
      · simpa [hlast] using ih
      · simp [hlast]

/-- C5: in make_sync_graphql_request an HTTP 429 response is never surfaced
directly to the caller (no result of the function is the 429 status error,
whatever the response sequence), and for the response sequence 429, 429, 200
the function returns the parsed JSON body of the 200 response. -/
theorem c5_rate_limited_retry :
    (∀ outcomes : Nat → AttemptOutcome,
        make_sync_graphql_request outcomes ≠ .error (.apiStatusError 429)) ∧
    (∀ b1 b2 b : Json,
        make_sync_graphql_request
          (fun k => if k = 0 then .response 429 b1
                    else if k = 1 then .response 429 b2
                    else .response 200 b) = .ok b) := by
  constructor
  · intro outcomes
    exact makeSyncLoop_never_429 outcomes (List.range 3)
  · intro b1 b2 b
    rfl

/-- Witness for C5: a concrete all-429 sequence does not surface the 429
status error, and the concrete sequence 429, 429, 200 returns the 200 body. -/
theorem c5_rate_limited_retry_witness :
    make_sync_graphql_request (fun _ => .response 429 .null) ≠
      .error (.apiStatusError 429) ∧
    make_sync_graphql_request
      (fun k => if k = 0 then .response 429 .null
                else if k = 1 then .response 429 (.str "second")
                else .response 200 (.str "payload")) = .ok (.str "payload") :=
  ⟨c5_rate_limited_retry.1 _, c5_rate_limited_retry.2 .null (.str "second") (.str "payload")⟩

/-- Submission failure: when start_bulk_operation raises, the task catches
the exception and returns the structured failure dict without caching. -/
theorem pullResource_submission_error (res : String)
    (guard : Option SubmissionResult → Option PyErr) (shop taskId : String)
    (env : TaskEnv) (e : PyErr) (h : env.submission = .error e) :
    pullResource res guard shop taskId env = (failureResult res e, []) := by
  simp [pullResource, h]

/-- Guard failure: when the submission guard raises, the task returns the
structured failure dict without polling or caching. -/
theorem pullResource_guard_error (res : String)
    (guard : Option SubmissionResult → Option PyErr) (shop taskId : String)
    (env : TaskEnv) (r : Option SubmissionResult) (e : PyErr)
    (h : env.submission = .ok r) (hg : guard r = some e) :
    pullResource res guard shop taskId env = (failureResult res e, []) := by
  simp [pullResource, h, hg]

/-- Polling failure: when poll_bulk_operation raises (TimeoutError,
ValueError or a propagated request error), the task returns the structured
failure dict without caching. -/
theorem pullResource_poll_error (res : String)
    (guard : Option SubmissionResult → Option PyErr) (shop taskId : String)
    (env : TaskEnv) (r : Option SubmissionResult) (e : PyErr)
    (h : env.submission = .ok r) (hg : guard r = none)
    (hp : poll_bulk_operation env.pollReplies = .error e) :
    pullResource res guard shop taskId env = (failureResult res e, []) := by
  simp [pullResource, h, hg, hp]

/-- Terminal non-COMPLETED operation: the task raises and catches the bulk
failure carrying the errorCode of the operation, without caching. -/
theorem pullResource_bulk_failed (res : String)
    (guard : Option SubmissionResult → Option PyErr) (shop taskId : String)
    (env : TaskEnv) (r : Option SubmissionResult) (op : BulkOp)
    (h : env.submission = .ok r) (hg : guard r = none)
    (hp : poll_bulk_operation env.pollReplies = .ok op)
    (hs : op.status ≠ "COMPLETED") :
    pullResource res guard shop taskId env =
      (failureResult res (.bulkFailed res op.errorCode), []) := by
  simp [pullResource, h, hg, hp, hs]

/-- Download failure: when download_bulk_data raises (network error, bad
status or a malformed line), the task returns the structured failure dict
without caching. -/
theorem pullResource_download_error (res : String)
    (guard : Option SubmissionResult → Option PyErr) (shop taskId : String)
    (env : TaskEnv) (r : Option SubmissionResult) (op : BulkOp) (e : PyErr)
    (h : env.submission = .ok r) (hg : guard r = none)
    (hp : poll_bulk_operation env.pollReplies = .ok op)
    (hs : op.status = "COMPLETED")
    (hd : download_bulk_data env op.url = .error e) :
    pullResource res guard shop taskId env = (failureResult res e, []) := by
  simp [pullResource, h, hg, hp, hs, hd]

/-- Successful run: a COMPLETED operation whose result file parses yields the
success dict and exactly one cache write under the shopify-scheme key. -/
theorem pullResource_success (res : String)
    (guard : Option SubmissionResult → Option PyErr) (shop taskId : String)
    (env : TaskEnv) (r : Option SubmissionResult) (op : BulkOp) (data : List Json)
    (h : env.submission = .ok r) (hg : guard r = none)
    (hp : poll_bulk_operation env.pollReplies = .ok op)
    (hs : op.status = "COMPLETED")
    (hd : download_bulk_data env op.url = .ok data) :
    pullResource res guard shop taskId env =
      ({ success := true, count := some data.length, error := none,
         message := "Successfully pulled " ++ toString data.length ++ " " ++ res },
       [(bulkPullCacheKey res shop taskId, jsonDumpsTop env.jsonDumpElem data)]) := by
  simp [pullResource, h, hg, hp, hs, hd]

/-- C4: for every pull task (pull_customers, pull_products, pull_orders) and
every execution in which the submission raises, the submission guard raises,
polling fails (TimeoutError included), the operation ends FAILED or CANCELED,
or the download fails, the task returns the structured failure dict
(success False, the underlying error, a message) and performs no cache
write; no exception propagates past the task boundary (the embedded tasks
are total functions into result dicts, mirroring the try/except Exception
wrapping the whole task body). -/
theorem c4_failures_return_structured_results :
    ∀ (shop taskId : String) (env : TaskEnv),
      (∀ e : PyErr, env.submission = .error e →
          pull_customers shop taskId env = (failureResult "customers" e, []) ∧
          pull_products shop taskId env = (failureResult "products" e, []) ∧
          pull_orders shop taskId env = (failureResult "orders" e, [])) ∧
      (∀ (r : Option SubmissionResult) (e : PyErr), env.submission = .ok r →
          (customersGuardError r = some e →
              pull_customers shop taskId env = (failureResult "customers" e, [])) ∧
          (productsGuardError "products" r = some e →
              pull_products shop taskId env = (failureResult "products" e, [])) ∧
          (productsGuardError "orders" r = some e →
              pull_orders shop taskId env = (failureResult "orders" e, []))) ∧
      (∀ (r : Option SubmissionResult) (e : PyErr), env.submission = .ok r →
          poll_bulk_operation env.pollReplies = .error e →
          (customersGuardError r = none →
              pull_customers shop taskId env = (failureResult "customers" e, [])) ∧
          (productsGuardError "products" r = none →
              pull_products shop taskId env = (failureResult "products" e, [])) ∧
          (productsGuardError "orders" r = none →
              pull_orders shop taskId env = (failureResult "orders" e, []))) ∧
      (∀ (r : Option SubmissionResult) (op : BulkOp), env.submission = .ok r →
          poll_bulk_operation env.pollReplies = .ok op → op.status ≠ "COMPLETED" →
          (customersGuardError r = none →
              pull_customers shop taskId env =
                (failureResult "customers" (.bulkFailed "customers" op.errorCode), [])) ∧
          (productsGuardError "products" r = none →
              pull_products shop taskId env =
                (failureResult "products" (.bulkFailed "products" op.errorCode), [])) ∧
          (productsGuardError "orders" r = none →
              pull_orders shop taskId env =
                (failureResult "orders" (.bulkFailed "orders" op.errorCode), []))) ∧
      (∀ (r : Option SubmissionResult) (op : BulkOp) (e : PyErr), env.submission = .ok r →
          poll_bulk_operation env.pollReplies = .ok op → op.status = "COMPLETED" →
          download_bulk_data env op.url = .error e →
          (customersGuardError r = none →
              pull_customers shop taskId env = (failureResult "customers" e, [])) ∧
          (productsGuardError "products" r = none →
              pull_products shop taskId env = (failureResult "products" e, [])) ∧
          (productsGuardError "orders" r = none →
              pull_orders shop taskId env = (failureResult "orders" e, []))) := by
  intro shop taskId env
  refine ⟨?_, ?_, ?_, ?_, ?_⟩
  · intro e h
    exact ⟨pullResource_submission_error _ _ _ _ _ _ h,
           pullResource_submission_error _ _ _ _ _ _ h,
           pullResource_submission_error _ _ _ _ _ _ h⟩
  · intro r e h
    exact ⟨fun hg => pullResource_guard_error _ _ _ _ _ _ _ h hg,
           fun hg => pullResource_guard_error _ _ _ _ _ _ _ h hg,
           fun hg => pullResource_guard_error _ _ _ _ _ _ _ h hg⟩
  · intro r e h hp
    exact ⟨fun hg => pullResource_poll_error _ _ _ _ _ _ _ h hg hp,
           fun hg => pullResource_poll_error _ _ _ _ _ _ _ h hg hp,
           fun hg => pullResource_poll_error _ _ _ _ _ _ _ h hg hp⟩
  · intro r op h hp hs
    exact ⟨fun hg => pullResource_bulk_failed _ _ _ _ _ _ _ h hg hp hs,
           fun hg => pullResource_bulk_failed _ _ _ _ _ _ _ h hg hp hs,
           fun hg => pullResource_bulk_failed _ _ _ _ _ _ _ h hg hp hs⟩
  · intro r op e h hp hs hd
    exact ⟨fun hg => pullResource_download_error _ _ _ _ _ _ _ _ h hg hp hs hd,
           fun hg => pullResource_download_error _ _ _ _ _ _ _ _ h hg hp hs hd,
           fun hg => pullResource_download_error _ _ _ _ _ _ _ _ h hg hp hs hd⟩

/-- Witness for C4 at concrete environments: a raised submission, a poll
that never terminates (Timeout), a FAILED operation, and a malformed result
download each yield the structured failure dict with no cache write. -/
theorem c4_failures_return_structured_results_witness :
    pull_customers "shop1" "task1"
      { submission := .error .requestException, pollReplies := fun _ => .invalid,
        fetch := fun _ => .error .requestException,
        jsonLoads := fun l => .error (.jsonDecodeError l), jsonDumpElem := fun _ => "null" } =
      (failureResult "customers" .requestException, []) ∧
    pull_products "shop1" "task1"
      { submission := .ok (some { data := some { bulkOperationRunQuery := some { userErrors := [] } } }),
        pollReplies := fun _ => .op ⟨"RUNNING", none, none⟩,
        fetch := fun _ => .error .requestException,
        jsonLoads := fun l => .error (.jsonDecodeError l), jsonDumpElem := fun _ => "null" } =
      (failureResult "products" .timeoutError, []) ∧
    pull_orders "shop1" "task1"
      { submission := .ok (some { data := some { bulkOperationRunQuery := some { userErrors := [] } } }),
        pollReplies := fun _ => .op ⟨"FAILED", none, some "ACCESS_DENIED"⟩,
        fetch := fun _ => .error .requestException,
        jsonLoads := fun l => .error (.jsonDecodeError l), jsonDumpElem := fun _ => "null" } =
      (failureResult "orders" (.bulkFailed "orders" (some "ACCESS_DENIED")), []) ∧
    pull_customers "shop1" "task1"
      { submission := .ok (some { data := some { bulkOperationRunQuery := some { userErrors := [] } } }),
        pollReplies := fun _ => .op ⟨"COMPLETED", some "https://r.example/x.jsonl", none⟩,
        fetch := fun _ => .ok "nonjson",
        jsonLoads := fun l => .error (.jsonDecodeError l), jsonDumpElem := fun _ => "null" } =
      (failureResult "customers" (.jsonDecodeError "nonjson"), []) := by
  refine ⟨?_, ?_, ?_, ?_⟩
  · exact ((c4_failures_return_structured_results "shop1" "task1" _).1 .requestException rfl).1
  · exact ((c4_failures_return_structured_results "shop1" "task1" _).2.2.1
      (some { data := some { bulkOperationRunQuery := some { userErrors := [] } } })
      .timeoutError rfl
      (pollLoop_timeout _ 200 0 (fun k _ _ => ⟨⟨"RUNNING", none, none⟩, rfl, by simp⟩))).2.1 rfl
  · exact ((c4_failures_return_structured_results "shop1" "task1"
      { submission := .ok (some { data := some { bulkOperationRunQuery := some { userErrors := [] } } }),
        pollReplies := fun _ => .op ⟨"FAILED", none, some "ACCESS_DENIED"⟩,
        fetch := fun _ => .error .requestException,
        jsonLoads := fun l => .error (.jsonDecodeError l),
        jsonDumpElem := fun _ => "null" }).2.2.2.1
      (some { data := some { bulkOperationRunQuery := some { userErrors := [] } } })
      ⟨"FAILED", none, some "ACCESS_DENIED"⟩ rfl rfl (by simp)).2.2 rfl
  · exact ((c4_failures_return_structured_results "shop1" "task1"
      { submission := .ok (some { data := some { bulkOperationRunQuery := some { userErrors := [] } } }),
        pollReplies := fun _ => .op ⟨"COMPLETED", some "https://r.example/x.jsonl", none⟩,
        fetch := fun _ => .ok "nonjson",
        jsonLoads := fun l => .error (.jsonDecodeError l),
        jsonDumpElem := fun _ => "null" }).2.2.2.2
      (some { data := some { bulkOperationRunQuery := some { userErrors := [] } } })
      ⟨"COMPLETED", some "https://r.example/x.jsonl", none⟩ (.jsonDecodeError "nonjson")
      rfl rfl rfl rfl).1 rfl

/-- C2 counterexample: the claim states that all three pull tasks return
success False immediately when the submission carries user errors (for
example "already running") without entering the poll loop; but pull_products
only checks for a missing data envelope, so with a user-error submission and
a first poll reply that reports a COMPLETED operation with an empty result
file, pull_products proceeds through the poll loop and returns success True,
contradicting the claim at this concrete input. -/
theorem c2_counterexample_products_polls_despite_user_errors :
    (pull_products "shop1" "task1"
      { submission := .ok (some ⟨some ⟨some ⟨["A bulk operation is already in progress"]⟩⟩⟩),
        pollReplies := fun _ => .op ⟨"COMPLETED", some "https://r.example/bulk.jsonl", none⟩,
        fetch := fun _ => .ok "",
        jsonLoads := fun l => .error (.jsonDecodeError l),
        jsonDumpElem := fun _ => "null" }).fst.success = true := rfl

/-- C2 amended: pull_customers (the only task whose guard inspects
userErrors) returns the structured failure immediately when the submission
carries user errors, whatever the poll replies, fetch and parsing oracles do
(the universally quantified oracles witness that the poll loop is never
consulted); pull_products and pull_orders check only for a missing data
envelope, as the counterexample shows. -/
theorem c2_customers_rejects_user_errors :
    ∀ (shop taskId : String) (ue : List String) (pr : Nat → PollReply)
      (f : Option String → Except PyErr String) (jl : String → Except PyErr Json)
      (jd : Json → String), ue ≠ [] →
      pull_customers shop taskId
        { submission := .ok (some { data := some { bulkOperationRunQuery := some { userErrors := ue } } }),
          pollReplies := pr, fetch := f, jsonLoads := jl, jsonDumpElem := jd } =
        (failureResult "customers" (.startFailed ue), []) := by
  intro shop taskId ue pr f jl jd h
  simp [pull_customers, pullResource, customersGuardError, h]

/-- Witness for C2 at a concrete user-error submission and degenerate
oracles. -/
theorem c2_customers_rejects_user_errors_witness :
    pull_customers "shop1" "task1"
      { submission := .ok (some ⟨some ⟨some ⟨["A bulk operation is already in progress"]⟩⟩⟩),
        pollReplies := fun _ => .invalid,
        fetch := fun _ => .error .requestException,
        jsonLoads := fun l => .error (.jsonDecodeError l),
        jsonDumpElem := fun _ => "null" } =
      (failureResult "customers" (.startFailed ["A bulk operation is already in progress"]), []) :=
  c2_customers_rejects_user_errors "shop1" "task1" _ _ _ _ _ (by simp)

/-- C3: for each of the three resource types, a pull whose bulk operation
completes with an empty result file returns success True with count 0 and
caches exactly the empty-list JSON under the resource key
shopify:[resource]:[shop]:[taskId]; the empty result is not treated as an
error. The shop, task id, result url and the two JSON oracles are arbitrary. -/
theorem c3_empty_result_is_success :
    ∀ (shop taskId u : String) (jl : String → Except PyErr Json) (jd : Json → String),
      pull_customers shop taskId
        { submission := .ok (some { data := some { bulkOperationRunQuery := some { userErrors := [] } } }),
          pollReplies := fun _ => .op ⟨"COMPLETED", some u, none⟩,
          fetch := fun _ => .ok "", jsonLoads := jl, jsonDumpElem := jd } =
        ({ success := true, count := some 0, error := none,
           message := "Successfully pulled 0 customers" },
         [(bulkPullCacheKey "customers" shop taskId, "[]")]) ∧
      pull_products shop taskId
        { submission := .ok (some { data := some { bulkOperationRunQuery := some { userErrors := [] } } }),
          pollReplies := fun _ => .op ⟨"COMPLETED", some u, none⟩,
          fetch := fun _ => .ok "", jsonLoads := jl, jsonDumpElem := jd } =
        ({ success := true, count := some 0, error := none,
           message := "Successfully pulled 0 products" },
         [(bulkPullCacheKey "products" shop taskId, "[]")]) ∧
      pull_orders shop taskId
        { submission := .ok (some { data := some { bulkOperationRunQuery := some { userErrors := [] } } }),
          pollReplies := fun _ => .op ⟨"COMPLETED", some u, none⟩,
          fetch := fun _ => .ok "", jsonLoads := jl, jsonDumpElem := jd } =
        ({ success := true, count := some 0, error := none,
           message := "Successfully pulled 0 orders" },
         [(bulkPullCacheKey "orders" shop taskId, "[]")]) := by
  intro shop taskId u jl jd
  refine ⟨rfl, rfl, rfl⟩

/-- C6: the results endpoint reads key [resource_type]_pull:[store]:[job_id]
while the pull tasks write key shopify:[resource_type]:[store]:[job_id], and
for every resource type, store and job id the two key strings differ (their
lengths differ by 3), so a result written by a pull task is never addressed
by the results endpoint key for the same parameters; moreover every cache
write a pull task performs uses the shopify-scheme key. -/
theorem c6_cache_key_schemes_incompatible :
    (∀ resourceType store jobId : String,
        resultsCacheKey resourceType store jobId ≠ bulkPullCacheKey resourceType store jobId) ∧
    (∀ (resource shop taskId : String) (guard : Option SubmissionResult → Option PyErr)
        (env : TaskEnv) (kv : String × String),
        kv ∈ (pullResource resource guard shop taskId env).snd →
        kv.fst = bulkPullCacheKey resource shop taskId) := by
  constructor
  · intro rt store jid h
    have hlen := congrArg String.length h
    simp only [resultsCacheKey, bulkPullCacheKey, String.length_append,
      show ("_pull:" : String).length = 6 from rfl,
      show (":" : String).length = 1 from rfl,
      show ("shopify:" : String).length = 8 from rfl] at hlen
    omega
  · intro resource shop taskId guard env kv
    rcases hsub : env.submission with e | r
    · rw [pullResource_submission_error _ _ _ _ _ _ hsub]; simp
    · rcases hg : guard r with _ | e
      · rcases hp : poll_bulk_operation env.pollReplies with e | op
        · rw [pullResource_poll_error _ _ _ _ _ _ _ hsub hg hp]; simp
        · by_cases hs : op.status = "COMPLETED"
          · rcases hd : download_bulk_data env op.url with e | data
            · rw [pullResource_download_error _ _ _ _ _ _ _ _ hsub hg hp hs hd]; simp
            · rw [pullResource_success _ _ _ _ _ _ _ _ hsub hg hp hs hd]
              intro hkv
              simp only [List.mem_singleton] at hkv
              rw [hkv]
          · rw [pullResource_bulk_failed _ _ _ _ _ _ _ hsub hg hp hs]; simp
      · rw [pullResource_guard_error _ _ _ _ _ _ _ hsub hg]; simp

/-- Witness for C6 at concrete parameters: the two key strings for the
customers resource differ. -/
theorem c6_cache_key_schemes_incompatible_witness :
    resultsCacheKey "customers" "shop1.myshopify.com" "task1" ≠
      bulkPullCacheKey "customers" "shop1.myshopify.com" "task1" :=
  c6_cache_key_schemes_incompatible.1 "customers" "shop1.myshopify.com" "task1"

/-- C7: pull_all_data schedules exactly three sub-tasks, one per resource
type, under the deterministically derived identifiers parent-customers,
parent-products and parent-orders, and returns at once with success True and
those three sub-task ids (the model consumes no information about sub-task
completion, so the return value cannot depend on it); the three derived ids
are pairwise distinct. -/
theorem c7_pull_all_data_schedules_three_subtasks :
    ∀ parentId : String,
      (pull_all_data parentId).fst =
        { success := true, message := "Data pull tasks scheduled successfully",
          taskId := parentId,
          subtaskCustomers := parentId ++ "-customers",
          subtaskProducts := parentId ++ "-products",
          subtaskOrders := parentId ++ "-orders" } ∧
      (pull_all_data parentId).snd =
        [("pull_customers", parentId ++ "-customers"),
         ("pull_products", parentId ++ "-products"),
         ("pull_orders", parentId ++ "-orders")] ∧
      (pull_all_data parentId).snd.length = 3 ∧
      parentId ++ "-customers" ≠ parentId ++ "-products" ∧
      parentId ++ "-customers" ≠ parentId ++ "-orders" ∧
      parentId ++ "-products" ≠ parentId ++ "-orders" := by
  intro parentId
  refine ⟨rfl, rfl, rfl, ?_, ?_, ?_⟩ <;>
  · intro h
    have hlen := congrArg String.length h
    simp only [String.length_append,
      show ("-customers" : String).length = 10 from rfl,
      show ("-products" : String).length = 9 from rfl,
      show ("-orders" : String).length = 7 from rfl] at hlen
    omega

/-- Witness for C7 at a concrete parent job id. -/
theorem c7_pull_all_data_schedules_three_subtasks_witness :
    (pull_all_data "job42").snd =
      [("pull_customers", "job42-customers"),
       ("pull_products", "job42-products"),
       ("pull_orders", "job42-orders")] :=
  (c7_pull_all_data_schedules_three_subtasks "job42").2.1

/-- SHA-256 digests are non-empty byte lists (the serialization of the final
state begins with the top byte of the first word). -/
theorem sha256_cons (ms : List Nat) : ∃ b t, sha256 ms = b :: t :=
  ⟨_, _, rfl⟩

/-- SHA-256 digests are never the empty list. -/
theorem sha256_ne_nil (ms : List Nat) : sha256 ms ≠ [] := by
  intro h
  obtain ⟨b, t, hbt⟩ := sha256_cons ms
  rw [hbt] at h
  cases h

/-- HMAC-SHA256 digests are never the empty list. -/
theorem hmacSha256_ne_nil (key msg : List Nat) : hmacSha256 key msg ≠ [] :=
  sha256_ne_nil _

/-- Base64 of a non-empty byte list is a non-empty string. -/
theorem base64Encode_ne_empty : ∀ l : List Nat, l ≠ [] → base64Encode l ≠ "" := by
  intro l hl h
  match l, hl with
  | b1 :: rest, _ =>
    cases rest with
    | nil =>
      have hd := congrArg String.data h
      simp [base64Encode] at hd
    | cons b2 rest2 =>
      cases rest2 with
      | nil =>
        have hd := congrArg String.data h
        simp [base64Encode] at hd
      | cons b3 rest3 =>
        have hd := congrArg String.data h
        simp [base64Encode, String.data_append] at hd

/-- Correctly computed HMAC headers pass verification whenever the body and
the secret are non-empty. -/
theorem verify_correct_hmac (data : List Nat) (secret : String)
    (h1 : data ≠ []) (h2 : secret ≠ "") :
    verify_shopify_webhook_hmac data secret
      (base64Encode (hmacSha256 (utf8Encode secret) data)) = true := by
  have h3 : base64Encode (hmacSha256 (utf8Encode secret) data) ≠ "" :=
    base64Encode_ne_empty _ (hmacSha256_ne_nil _ _)
  unfold verify_shopify_webhook_hmac
  rw [if_neg h1, if_neg h2, if_neg h3, if_pos rfl]

/-- C8 counterexample: the claim states that verification returns True
exactly when the received value equals the base64 HMAC-SHA256 of the body,
regardless of payload size; but for the empty body the source returns False
even when the received value is exactly that correctly computed HMAC, so the
biconditional fails at this concrete input (empty body, secret x, received
equal to the correct digest). -/
theorem c8_counterexample_empty_body_with_valid_hmac :
    ¬ (verify_shopify_webhook_hmac [] "x"
          (base64Encode (hmacSha256 (utf8Encode "x") [])) = true ↔
        base64Encode (hmacSha256 (utf8Encode "x") []) =
          base64Encode (hmacSha256 (utf8Encode "x") [])) := by
  intro h
  have hv := h.mpr rfl
  simp [verify_shopify_webhook_hmac] at hv

/-- C8 amended: verify_shopify_webhook_hmac returns True exactly when the
body, the secret and the received header are all non-empty and the received
header equals the base64 HMAC-SHA256 of the body under the secret; in
particular, for non-empty inputs, a tampered body always fails and an
untampered body with a correctly computed HMAC always passes, whatever the
payload content (embedded null bytes included). -/
theorem c8_verify_hmac_characterization :
    ∀ (data : List Nat) (secret received_hmac : String),
      verify_shopify_webhook_hmac data secret received_hmac = true ↔
        (data ≠ [] ∧ secret ≠ "" ∧ received_hmac ≠ "" ∧
          received_hmac = base64Encode (hmacSha256 (utf8Encode secret) data)) := by
  intro data secret received
  unfold verify_shopify_webhook_hmac
  split_ifs with h1 h2 h3 h4
  · simp [h1]
  · simp [h2]
  · simp [h3]
  · constructor
    · intro _
      exact ⟨h1, h2, h3, h4.symm⟩
    · intro _
      rfl
  · constructor
    · intro hc
      exact absurd hc (by simp)
    · rintro ⟨-, -, -, hr⟩
      exact absurd hr.symm h4

/-- C9: the claim states the webhook endpoint returns HTTP 200 in every case
beyond the 400 (missing header) and 401 (bad HMAC) checks, including an
internal processing error inside a topic handler, so the sender never
retries an authenticated delivery; the endpoint docstring and the handler
comments state the same intent. The code breaks this: the database queries
at shopify_webhooks_router.py lines 45 and 95 (and the shop lookups at lines
149 and 236) sit outside every try/except, so an authenticated
customers/data_request delivery whose events query raises escapes the
endpoint as an exception instead of a 200 response. This theorem evaluates
the embedded endpoint at that failing input: headers present, HMAC computed
correctly over the body, parseable payload with a customer id, shop found,
events query raising. -/
theorem c9_handler_db_error_escapes_endpoint :
    receive_webhook (some "customers/data_request")
      (some (base64Encode (hmacSha256 (utf8Encode "shpss_secret") (utf8Encode "webhookbody"))))
      (some "shop1.myshopify.com") (utf8Encode "webhookbody") "shpss_secret"
      (.ok { customerId := some "gid://shopify/Customer/123",
             shopDomainField := some "shop1.myshopify.com" })
      { findShop := fun _ => .ok (some 1),
        customerEvents := fun _ _ => .error (),
        redactOps := .ok (), shopRedactOps := .ok () } = .unhandled := by
  have hne : base64Encode (hmacSha256 (utf8Encode "shpss_secret") (utf8Encode "webhookbody")) ≠ "" :=
    base64Encode_ne_empty _ (hmacSha256_ne_nil _ _)
  have hf : headerFalsy (some (base64Encode
      (hmacSha256 (utf8Encode "shpss_secret") (utf8Encode "webhookbody")))) = false := by
    simp [headerFalsy, hne]
  have hft : headerFalsy (some "customers/data_request") = false := by decide
  have hfd : headerFalsy (some "shop1.myshopify.com") = false := by decide
  have hv : verify_shopify_webhook_hmac (utf8Encode "webhookbody") "shpss_secret"
      (base64Encode (hmacSha256 (utf8Encode "shpss_secret") (utf8Encode "webhookbody"))) = true :=
    verify_correct_hmac _ _ (by decide) (by decide)
  have hb : utf8Encode "webhookbody" ≠ [] := by decide
  simp [receive_webhook, hft, hf, hfd, hv, hb, handle_customers_data_request]

/-- Empty lines do not affect the parse of the result file: parsing a line
list equals parsing its non-empty sublist. -/
theorem parseLines_skips_empty (loads : String → Except PyErr Json) :
    ∀ lines : List String,
      parseLines loads lines =
        parseLines loads (lines.filter (fun l => decide (¬ l = ""))) := by
  intro lines
  induction lines with
  | nil => rfl
  | cons l ls ih =>
    by_cases h : l = ""
    · subst h
      have h1 : parseLines loads ("" :: ls) = parseLines loads ls := by
        simp [parseLines]
      rw [h1, ih]
      rfl
    · have h2 : (l :: ls).filter (fun l => decide (¬ l = "")) =
          l :: ls.filter (fun l => decide (¬ l = "")) := by
        simp [List.filter_cons, h]
      rw [h2]
      simp only [parseLines, h, ih]

/-- The first malformed non-empty line aborts the whole parse with its
error, whatever follows it. -/
theorem parseLines_first_error (loads : String → Except PyErr Json) :
    ∀ (pre : List String) (l : String) (suf : List String) (e : PyErr),
      (∀ x ∈ pre, x = "" ∨ ∃ j, loads x = .ok j) → l ≠ "" → loads l = .error e →
      parseLines loads (pre ++ l :: suf) = .error e := by
  intro pre
  induction pre with
  | nil =>
    intro l suf e _ hl hload
    simp [parseLines, hl, hload]
  | cons x pre ih =>
    intro l suf e hpre hl hload
    have htail := ih l suf e (fun y hy => hpre y (by simp [hy])) hl hload
    by_cases hxe : x = ""
    · subst hxe
      simpa [parseLines] using htail
    · rcases hpre x (by simp) with hx | ⟨j, hj⟩
      · exact absurd hx hxe
      · rw [show ((x :: pre) ++ l :: suf) = x :: (pre ++ l :: suf) from rfl]
        simp only [parseLines, hxe, hj, htail]
        simp

/-- C10: download_bulk_data parses the result file line by line, silently
skipping empty lines, and aborts the whole batch at the first malformed
line (never skip-and-continue); consequently, when any line of the result
file is malformed, each enclosing pull task performs no cache write and
returns the structured failure result. -/
theorem c10_malformed_line_aborts_whole_batch :
    (∀ (loads : String → Except PyErr Json) (lines : List String),
        parseLines loads lines =
          parseLines loads (lines.filter (fun l => decide (¬ l = "")))) ∧
    (∀ (loads : String → Except PyErr Json) (pre : List String) (l : String)
        (suf : List String) (e : PyErr),
        (∀ x ∈ pre, x = "" ∨ ∃ j, loads x = .ok j) → l ≠ "" → loads l = .error e →
        parseLines loads (pre ++ l :: suf) = .error e) ∧
    (∀ (shop taskId : String) (env : TaskEnv) (r : Option SubmissionResult)
        (op : BulkOp) (text : String) (pre : List String) (l : String)
        (suf : List String) (e : PyErr),
        env.submission = .ok r →
        poll_bulk_operation env.pollReplies = .ok op → op.status = "COMPLETED" →
        env.fetch op.url = .ok text →
        pySplitLines (pyStrip text) = pre ++ l :: suf →
        (∀ x ∈ pre, x = "" ∨ ∃ j, env.jsonLoads x = .ok j) → l ≠ "" →
        env.jsonLoads l = .error e →
        (customersGuardError r = none →
            pull_customers shop taskId env = (failureResult "customers" e, [])) ∧
        (productsGuardError "products" r = none →
            pull_products shop taskId env = (failureResult "products" e, [])) ∧
        (productsGuardError "orders" r = none →
            pull_orders shop taskId env = (failureResult "orders" e, []))) := by
  refine ⟨fun loads => parseLines_skips_empty loads,
          fun loads => parseLines_first_error loads, ?_⟩
  intro shop taskId env r op text pre l suf e hsub hp hs hfetch hsplit hpre hl hload
  have hd : download_bulk_data env op.url = .error e := by
    unfold download_bulk_data
    rw [hfetch]
    show parseLines env.jsonLoads (pySplitLines (pyStrip text)) = .error e
    rw [hsplit]
    exact parseLines_first_error env.jsonLoads pre l suf e hpre hl hload
  exact ⟨fun hg => pullResource_download_error _ _ _ _ _ _ _ _ hsub hg hp hs hd,
         fun hg => pullResource_download_error _ _ _ _ _ _ _ _ hsub hg hp hs hd,
         fun hg => pullResource_download_error _ _ _ _ _ _ _ _ hsub hg hp hs hd⟩

/-- Witness for C10 at a concrete result file good-line newline bad-line: the
parse aborts with the error of the bad line and the customers task returns
the structured failure with no cache write; empty lines are skipped in a
concrete two-line list. -/
theorem c10_malformed_line_aborts_whole_batch_witness :
    parseLines (fun l => if l = "bad" then .error (.jsonDecodeError l) else .ok .null)
        ["", "a", ""] =
      parseLines (fun l => if l = "bad" then .error (.jsonDecodeError l) else .ok .null)
        (["", "a", ""].filter (fun l => decide (¬ l = ""))) ∧
    parseLines (fun l => if l = "bad" then .error (.jsonDecodeError l) else .ok .null)
        (["good"] ++ "bad" :: ["tail"]) = .error (.jsonDecodeError "bad") ∧
    pull_customers "shop1" "task1"
      { submission := .ok (some { data := some { bulkOperationRunQuery := some { userErrors := [] } } }),
        pollReplies := fun _ => .op ⟨"COMPLETED", some "https://r.example/x.jsonl", none⟩,
        fetch := fun _ => .ok "good\nbad",
        jsonLoads := fun l => if l = "bad" then .error (.jsonDecodeError l) else .ok .null,
        jsonDumpElem := fun _ => "null" } =
      (failureResult "customers" (.jsonDecodeError "bad"), []) := by
  refine ⟨c10_malformed_line_aborts_whole_batch.1 _ _, ?_, ?_⟩
  · exact c10_malformed_line_aborts_whole_batch.2.1 _ ["good"] "bad" ["tail"] _
      (by intro x hx; simp at hx; subst hx; exact Or.inr ⟨Json.null, rfl⟩)
      (by decide) rfl
  · exact (c10_malformed_line_aborts_whole_batch.2.2 "shop1" "task1"
      { submission := .ok (some { data := some { bulkOperationRunQuery := some { userErrors := [] } } }),
        pollReplies := fun _ => .op ⟨"COMPLETED", some "https://r.example/x.jsonl", none⟩,
        fetch := fun _ => .ok "good\nbad",
        jsonLoads := fun l => if l = "bad" then .error (.jsonDecodeError l) else .ok .null,
        jsonDumpElem := fun _ => "null" }
      (some { data := some { bulkOperationRunQuery := some { userErrors := [] } } })
      ⟨"COMPLETED", some "https://r.example/x.jsonl", none⟩
      "good\nbad" ["good"] "bad" [] (.jsonDecodeError "bad")
      rfl rfl rfl rfl (by decide)
      (by intro x hx; simp at hx; subst hx; exact Or.inr ⟨Json.null, rfl⟩)
      (by decide) rfl).1 rfl
